import Mathlib

/-!
Verification of the QGenie SQL-agent workflow (src/agents/sql_agent and
src/services/database/database_service.py), as a shallow embedding.

The embedding models:
* `SqlAgentState` — the TypedDict threaded through the graph (state.py);
  optional keys are `Option`, missing keys start at the Python-level
  defaults the nodes use with `.get`.
* the pure edge functions of edges.py;
* the node bodies of nodes.py, with every external call (LLM completions,
  backend API) supplied as an explicit outcome (`Except`/`ApiOutcome`);
* `execute_query` of database_service.py, which catches every exception of
  the backend call and always returns a string;
* the graph of graph.py as a step function on a run state, with
  `graph_run` playing the role of `SqlAgentGraph.run` (its catch-all
  returns the initial state plus a templated `final_response`).

Python string operations are modelled over `String.data` (list of
characters): `pySplit` is `str.split()` (split on whitespace, dropping
empty tokens), `lowerStr` is an ASCII model of `str.lower()`, `trimStr`
is `str.strip()`, `strContains` is the `in` substring test, and
`pyTruthy` is the truthiness test on an optional string.
-/

namespace QGenie

/-- Accumulator-passing core of Python `str.split()`: split on whitespace
runs, dropping empty tokens. -/
def splitWsAux : List Char → List Char → List String
  | [], acc => if acc.isEmpty then [] else [String.mk acc.reverse]
  | c :: cs, acc =>
    if c.isWhitespace then
      if acc.isEmpty then splitWsAux cs [] else String.mk acc.reverse :: splitWsAux cs []
    else splitWsAux cs (c :: acc)

/-- Python `s.split()` with no arguments. -/
def pySplit (s : String) : List String := splitWsAux s.data []

/-- ASCII model of Python `s.lower()`. -/
def lowerStr (s : String) : String := String.mk (s.data.map Char.toLower)

/-- Python `s.strip()`. -/
def trimStr (s : String) : String :=
  String.mk (((s.data.dropWhile Char.isWhitespace).reverse.dropWhile Char.isWhitespace).reverse)

/-- Whether `n` starts the list `h` (list prefix test, by Boolean recursion). -/
def startsWithList : List Char → List Char → Bool
  | [], _ => true
  | _ :: _, [] => false
  | a :: as, b :: bs => a == b && startsWithList as bs

/-- Whether `n` occurs contiguously inside `h` (Python `n in h` on strings). -/
def occursIn (n : List Char) : List Char → Bool
  | [] => startsWithList n []
  | c :: rest => startsWithList n (c :: rest) || occursIn n rest

/-- Python substring test `needle in hay`. -/
def strContains (hay needle : String) : Bool := occursIn needle.data hay.data

/-- Python truthiness of an optional string (`None` and `""` are falsy). -/
def pyTruthy : Option String → Bool
  | none => false
  | some s => !(s == "")

/-- Python `str(x)` of an optional string (`None` prints as "None"),
as used by the f-strings of nodes.py. -/
def pyStr : Option String → String
  | none => "None"
  | some s => s

/-- Python `', '.join`-style separator join. -/
def joinSep (sep : String) : List String → String
  | [] => ""
  | [x] => x
  | x :: y :: xs => x ++ sep ++ joinSep sep (y :: xs)

/-- The agent state of state.py (`SqlAgentState` TypedDict). The caller
(chatbot_service.handle_request) initializes `question`, `chat_history`
and both error counters; the other keys are absent until a node writes
them, which the embedding models with the defaults the nodes' `.get`
calls use. -/
structure SqlAgentState where
  question : String := ""
  chat_history : List String := []
  selected_db : Option String := none
  db_schema : String := ""
  intent : String := ""
  sql_query : String := ""
  validation_error : Option String := none
  validation_error_count : Nat := 0
  execution_result : Option String := none
  execution_error_count : Nat := 0
  final_response : Option String := none
deriving Repr, DecidableEq

/-- MAX_ERROR_COUNT of nodes.py and edges.py. -/
def MAX_ERROR_COUNT : Nat := 3

/-- edges.py `route_after_intent_classification`. -/
def route_after_intent_classification (s : SqlAgentState) : String :=
  if s.intent == "SQL" then "db_classifier" else "unsupported_question"

/-- edges.py `should_execute_sql`. -/
def should_execute_sql (s : SqlAgentState) : String :=
  if MAX_ERROR_COUNT ≤ s.validation_error_count then "synthesize_failure"
  else if pyTruthy s.validation_error then "regenerate"
  else "execute"

/-- edges.py `should_retry_or_respond`. The Python code reads
`state.get("execution_result", "")`; this edge is only evaluated right
after `sql_executor`, which always stores a string there. -/
def should_retry_or_respond (s : SqlAgentState) : String :=
  if MAX_ERROR_COUNT ≤ s.execution_error_count then "synthesize_failure"
  else if strContains (s.execution_result.getD "") "오류" then "regenerate"
  else "synthesize_success"

/-- Shape of `response.data` of the backend query API, as discriminated by
database_service.execute_query (`hasattr(..., 'columns') and
hasattr(..., 'data')`, `isinstance(response.data, str)`). `NULL` cells are
`none`. -/
inductive RespData where
  | table (columns : List String) (rows : List (List (Option String)))
  | str (s : String)
  | other
deriving Repr, DecidableEq

/-- Backend response of `api_client.execute_query` (code, message, data). -/
structure ApiResponse where
  code : String
  message : String
  data : RespData
deriving Repr, DecidableEq

/-- Outcome of the awaited `api_client.execute_query` call: a response, or
an exception (timeout, connection error, ...) carrying its message. -/
inductive ApiOutcome where
  | ok (resp : ApiResponse)
  | raises (e : String)
deriving Repr, DecidableEq

/-- Python `str(cell) if cell is not None else "NULL"`. -/
def cellToStr : Option String → String
  | some c => c
  | none => "NULL"

/-- One formatted result row of execute_query. -/
def rowLine (row : List (Option String)) : String := joinSep " | " (row.map cellToStr)

/-- The tabular success text built by database_service.execute_query for a
code-2400 response carrying columns and rows (header, dashes, up to 100
rows, truncation note). -/
def formatQueryResult (columns : List String) (rows : List (List (Option String))) : String :=
  let header := joinSep " | " columns
  let maxRows := min 100 rows.length
  "쿼리 실행 결과 (" ++ Nat.repr rows.length ++ "개 행, " ++ Nat.repr columns.length
    ++ "개 컬럼):\n\n" ++ header ++ "\n" ++ String.mk (List.replicate header.length '-') ++ "\n"
    ++ joinSep "" ((rows.take maxRows).map (fun r => rowLine r ++ "\n"))
    ++ (if maxRows < rows.length then
          "\n... (" ++ Nat.repr (rows.length - maxRows) ++ "개 행 더 있음)" else "")

/-- database_service.py `DatabaseService.execute_query`. Its `try` wraps
the whole body, so every exception of the backend call is caught and
turned into the string `"쿼리 실행 중 오류 발생: ..."`; a non-2400 response
code is turned into the string `"쿼리 실행 실패: ..."`. The function never
raises: it returns a string for every outcome of the API call. -/
def execute_query (api : ApiOutcome) : String :=
  match api with
  | .raises e => "쿼리 실행 중 오류 발생: " ++ e
  | .ok resp =>
    if resp.code == "2400" then
      match resp.data with
      | .table columns rows => formatQueryResult columns rows
      | _ => "쿼리가 성공적으로 실행되었습니다."
    else
      "쿼리 실행 실패: " ++ resp.message ++ " (코드: " ++ resp.code ++ ")"
        ++ (match resp.data with
            | .str d => " 상세: " ++ d
            | _ => "")

/-- Exceptions of exceptions.py that the graph model can raise, carrying
their `str(e)` message. -/
inductive AgentError where
  | maxRetryExceeded (msg : String)
  | databaseConnection (msg : String)
  | executionFailure (msg : String)
  | generic (msg : String)
deriving Repr, DecidableEq

/-- Python `str(e)` of an agent exception. -/
def AgentError.toMessage : AgentError → String
  | .maxRetryExceeded m => m
  | .databaseConnection m => m
  | .executionFailure m => m
  | .generic m => m

/-- Message format of `MaxRetryExceededException.__init__` (exceptions.py):
the given message plus the retry-count suffix. -/
def maxRetryExceededMessage (message : String) (max_retries : Nat) : String :=
  message ++ " (최대 재시도 " ++ Nat.repr max_retries ++ "회 초과)"

/-- Outcome of an awaited call as seen by a caller with a `try`/`except`:
either a returned value or a raised exception message. -/
inductive CallResult where
  | returns (r : String)
  | raises (e : String)
deriving Repr, DecidableEq

/-- nodes.py `intent_classifier_node`: on LLM success the stripped label is
stored as the intent verbatim; on any exception the intent defaults to
"SQL" (the node never re-raises). -/
def intent_classifier_node (llm : Except String String) (s : SqlAgentState) : SqlAgentState :=
  match llm with
  | .ok label => { s with intent := trimStr label }
  | .error _ => { s with intent := "SQL" }

/-- The fixed decline message of nodes.py `unsupported_question_node`. -/
def unsupported_message : String :=
  "죄송합니다, 해당 질문에는 답변할 수 없습니다. \n저는 데이터베이스 관련 질문만 처리할 수 있습니다. \nSQL 쿼리나 데이터 분석과 관련된 질문을 해주세요."

/-- nodes.py `unsupported_question_node`. -/
def unsupported_question_node (s : SqlAgentState) : SqlAgentState :=
  { s with final_response := some unsupported_message }

/-- One entry of `get_databases_with_annotations()`: display name,
description, profile fields, and the schema text derived from its
annotations when present (code ≠ "4401" with a non-empty database list);
the annotation payload itself is abstracted to that derived schema text,
which is all the graph reads from it. -/
structure DbInfo where
  display_name : String
  description : String
  profile_id : String
  profile_type : String
  host : String
  port : String
  annotations_schema : Option String
deriving Repr, DecidableEq

/-- The fallback schema string of db_classifier_node when a profile has no
annotations. -/
def db_fallback_schema (d : DbInfo) : String :=
  "DBMS 유형: " ++ d.profile_type ++ "\n호스트: " ++ d.host ++ "\n포트: " ++ d.port
    ++ "\n상세 스키마 정보가 없습니다. 기본 SQL 구문을 사용하세요."

/-- Schema text stored by db_classifier_node for the selected profile. -/
def db_schema_of (d : DbInfo) : String :=
  match d.annotations_schema with
  | some sch => sch
  | none => db_fallback_schema d

/-- The display-name matching of db_classifier_node: exact match first,
then substring match in either direction, then the first profile. -/
def pickDb (dbs : List DbInfo) (choice : String) (d0 : DbInfo) : DbInfo :=
  match dbs.find? (fun d => d.display_name == choice) with
  | some d => d
  | none =>
    match dbs.find? (fun d =>
        strContains d.display_name choice || strContains choice d.display_name) with
    | some d => d
    | none => d0

/-- nodes.py `db_classifier_node`. `dbs` is the outcome of
`get_databases_with_annotations()` (which wraps its own failures in a
RuntimeError), `choiceLlm` the outcome of the selection LLM call. An empty
profile list raises DatabaseConnectionException; the node's `except`
re-raises every exception. -/
def db_classifier_node (dbs : Except String (List DbInfo)) (choiceLlm : Except String String)
    (s : SqlAgentState) : Except AgentError SqlAgentState :=
  match dbs with
  | .error e =>
    .error (.generic ("어노테이션이 포함된 데이터베이스 목록을 가져올 수 없습니다: " ++ e))
  | .ok [] => .error (.databaseConnection "사용 가능한 DBMS가 없습니다.")
  | .ok (d0 :: rest) =>
    match choiceLlm with
    | .error e => .error (.generic e)
    | .ok raw =>
      let sel := pickDb (d0 :: rest) (trimStr raw) d0
      .ok { s with selected_db := some sel.display_name, db_schema := db_schema_of sel }

/-- nodes.py `_build_error_feedback`: the feedback block injected into the
next generation prompt after a validation or execution failure. -/
def build_error_feedback (s : SqlAgentState) : String :=
  if pyTruthy s.validation_error && decide (0 < s.validation_error_count) then
    "\n            Your previous query was rejected for the following reason: "
      ++ pyStr s.validation_error
      ++ "\n            Please generate a new, safe query that does not contain forbidden keywords.\n            "
  else if pyTruthy s.execution_result && strContains (s.execution_result.getD "") "오류"
      && decide (0 < s.execution_error_count) then
    "\n            Your previously generated SQL query failed with the following database error:\n            FAILED SQL: "
      ++ s.sql_query ++ "\n            DATABASE ERROR: " ++ pyStr s.execution_result
      ++ "\n            Please correct the SQL query based on the error.\n            "
  else ""

/-- nodes.py `sql_generator_node`: `llm` is the combined outcome of the
generation call and the Pydantic parse of its payload. On success the
query is stored and `validation_error`/`execution_result` are cleared; on
any failure the node raises `ExecutionException("SQL 생성 실패: ...")`. -/
def sql_generator_node (llm : Except String String) (s : SqlAgentState) :
    Except AgentError SqlAgentState :=
  match llm with
  | .error e => .error (.executionFailure ("SQL 생성 실패: " ++ e))
  | .ok q => .ok { s with sql_query := q, validation_error := none, execution_result := none }

/-- The deny-list of nodes.py `sql_validator_node`. -/
def dangerous_keywords : List String :=
  ["drop", "delete", "update", "insert", "truncate", "alter", "create", "grant", "revoke"]

/-- The keywords of the deny-list found among the whitespace tokens of the
lowercased query (`[keyword for keyword in dangerous_keywords if keyword
in query_words]`). -/
def found_keywords (q : String) : List String :=
  dangerous_keywords.filter (fun k => (pySplit (lowerStr q)).contains k)

/-- The validation error message naming the offending keywords. -/
def validation_error_message (ks : List String) : String :=
  "위험한 키워드 " ++ joinSep ", " (ks.map (fun k => "\x27" ++ k ++ "\x27"))
    ++ "가 포함되어 있습니다."

/-- nodes.py `sql_validator_node`: returns the mutated state together with
the `MaxRetryExceededException` the node raises when the incremented
counter reaches the ceiling (the dict mutation happens before the raise). -/
def sql_validator_run (s : SqlAgentState) : SqlAgentState × Option AgentError :=
  let ks := found_keywords s.sql_query
  if ks.isEmpty then
    ({ s with validation_error := none, validation_error_count := 0 }, none)
  else
    let s2 : SqlAgentState :=
      { s with validation_error := some (validation_error_message ks),
               validation_error_count := s.validation_error_count + 1 }
    if MAX_ERROR_COUNT ≤ s2.validation_error_count then
      (s2, some (.maxRetryExceeded (maxRetryExceededMessage
        ("SQL 검증 실패가 " ++ Nat.repr MAX_ERROR_COUNT ++ "회 반복됨") MAX_ERROR_COUNT)))
    else (s2, none)

/-- nodes.py `sql_executor_node`, parameterized by the outcome of the
awaited `database_service.execute_query` call as the node's `try`/`except`
sees it. On a returned result: store it, reset both counters. On a raised
exception: store `"실행 오류: ..."`, reset the validation counter,
increment the execution counter; the node returns the state instead of
re-raising. (The embedded `execute_query` never raises, so inside the
composed graph only the `returns` branch occurs.) -/
def sql_executor_node (call : CallResult) (s : SqlAgentState) : SqlAgentState :=
  match call with
  | .returns r =>
    { s with execution_result := some r, validation_error_count := 0, execution_error_count := 0 }
  | .raises e =>
    { s with execution_result := some ("실행 오류: " ++ e),
             validation_error_count := 0,
             execution_error_count := s.execution_error_count + 1 }

/-- nodes.py `_build_failure_context` (`error_type` and `error_details`
are both selected by the same ceiling test on the validation counter). -/
def build_failure_context (s : SqlAgentState) : String :=
  "\n        An attempt to answer the user\x27s question failed after multiple retries.\n        Failure Type: "
    ++ (if MAX_ERROR_COUNT ≤ s.validation_error_count then "SQL 검증" else "SQL 실행")
    ++ "\n        Last Error: "
    ++ (if MAX_ERROR_COUNT ≤ s.validation_error_count then pyStr s.validation_error
        else pyStr s.execution_result)
    ++ "\n        "

/-- The success context block of response_synthesizer_node. -/
def success_context (s : SqlAgentState) : String :=
  "\n                Successfully executed the SQL query to answer the user\x27s question.\n                SQL Query: "
    ++ s.sql_query ++ "\n                SQL Result: " ++ pyStr s.execution_result
    ++ "\n                "

/-- The context block response_synthesizer_node feeds its prompt: a failure
block iff either counter reached the ceiling. -/
def response_context (s : SqlAgentState) : String :=
  if MAX_ERROR_COUNT ≤ s.validation_error_count || MAX_ERROR_COUNT ≤ s.execution_error_count then
    build_failure_context s
  else success_context s

/-- nodes.py `response_synthesizer_node`: the LLM answer becomes the final
response; on any exception a templated error string is stored instead, so
the node never raises. -/
def response_synthesizer_node (llm : Except String String) (s : SqlAgentState) : SqlAgentState :=
  match llm with
  | .ok txt => { s with final_response := some txt }
  | .error e =>
    { s with final_response := some ("죄송합니다. 답변 생성 중 오류가 발생했습니다: " ++ e) }

deriving instance DecidableEq for Except

/-- The graph nodes of graph.py (`terminal` is langgraph's END). -/
inductive Node where
  | intent_classifier
  | db_classifier
  | unsupported_question
  | sql_generator
  | sql_validator
  | sql_executor
  | response_synthesizer
  | terminal
deriving Repr, DecidableEq

/-- The conditional-edge table of graph.py after `sql_validator`. -/
def validatorRoute (lbl : String) : Node :=
  if lbl == "regenerate" then .sql_generator
  else if lbl == "execute" then .sql_executor
  else .response_synthesizer

/-- The conditional-edge table of graph.py after `sql_executor`
("synthesize_success" and "synthesize_failure" both map to the
synthesizer). -/
def executorRoute (lbl : String) : Node :=
  if lbl == "regenerate" then .sql_generator else .response_synthesizer

/-- The conditional-edge table of graph.py after `intent_classifier`. -/
def intentRoute (lbl : String) : Node :=
  if lbl == "db_classifier" then .db_classifier else .unsupported_question

/-- Outcomes of all external calls of one run. The generator and executor
call sites are indexed by how many times they have been invoked in the
run; the other sites are invoked at most once. -/
structure Oracle where
  intentLlm : Except String String
  dbList : Except String (List DbInfo)
  dbChoiceLlm : Except String String
  genLlm : Nat → Except String String
  execApi : Nat → ApiOutcome
  synthLlm : Except String String

/-- A point of one run: the node about to execute, the agent state, and
the per-site call counts. -/
structure RunState where
  node : Node
  s : SqlAgentState
  genCalls : Nat
  execCalls : Nat
deriving Repr, DecidableEq

/-- One node execution plus the routing of graph.py: run the node the run
state points at, apply its state update, and move to the next node. An
uncaught node exception aborts the step (it propagates to
`SqlAgentGraph.run`). `terminal` stutters. -/
def stepNode (o : Oracle) (r : RunState) : Except AgentError RunState :=
  match r.node with
  | .intent_classifier =>
    let s2 := intent_classifier_node o.intentLlm r.s
    .ok { r with node := intentRoute (route_after_intent_classification s2), s := s2 }
  | .db_classifier =>
    match db_classifier_node o.dbList o.dbChoiceLlm r.s with
    | .error e => .error e
    | .ok s2 => .ok { r with node := .sql_generator, s := s2 }
  | .unsupported_question =>
    .ok { r with node := .terminal, s := unsupported_question_node r.s }
  | .sql_generator =>
    match sql_generator_node (o.genLlm r.genCalls) r.s with
    | .error e => .error e
    | .ok s2 => .ok { r with node := .sql_validator, s := s2, genCalls := r.genCalls + 1 }
  | .sql_validator =>
    match sql_validator_run r.s with
    | (_, some e) => .error e
    | (s2, none) => .ok { r with node := validatorRoute (should_execute_sql s2), s := s2 }
  | .sql_executor =>
    let s2 := sql_executor_node (.returns (execute_query (o.execApi r.execCalls))) r.s
    .ok { r with node := executorRoute (should_retry_or_respond s2), s := s2,
                 execCalls := r.execCalls + 1 }
  | .response_synthesizer =>
    .ok { r with node := .terminal, s := response_synthesizer_node o.synthLlm r.s }
  | .terminal => .ok r

/-- Drive the graph for at most `fuel` steps: `some (.ok s)` when END is
reached with state `s`, `some (.error e)` when a node exception escapes
the graph, `none` when the fuel runs out before termination. -/
def runLoop (o : Oracle) : Nat → RunState → Option (Except AgentError SqlAgentState)
  | 0, r => if r.node == .terminal then some (.ok r.s) else none
  | fuel + 1, r =>
    if r.node == .terminal then some (.ok r.s)
    else
      match stepNode o r with
      | .error e => some (.error e)
      | .ok r2 => runLoop o fuel r2

/-- The list of nodes a run visits, in order (ending at END, at the node
whose exception aborted the run, or where the fuel ran out). -/
def runNodes (o : Oracle) : Nat → RunState → List Node
  | 0, r => [r.node]
  | fuel + 1, r =>
    if r.node == .terminal then [r.node]
    else
      match stepNode o r with
      | .error _ => [r.node]
      | .ok r2 => r.node :: runNodes o fuel r2

/-- The initial state chatbot_service.handle_request builds: question,
history, both error counters zero, all other keys absent. -/
def initState (question : String) (history : List String) : SqlAgentState :=
  { question := question, chat_history := history,
    validation_error_count := 0, execution_error_count := 0 }

/-- The run starts at the entry point `intent_classifier`. -/
def startRun (q : String) (h : List String) : RunState :=
  { node := .intent_classifier, s := initState q h, genCalls := 0, execCalls := 0 }

/-- graph.py `SqlAgentGraph.run`: invoke the graph; on any exception return
the initial state with the templated `final_response`
(`{**initial_state, 'final_response': f"죄송합니다. 처리 중 오류가 발생했습니다: {e}"}`).
`none` when the fuel runs out (the Python loop would still be running). -/
def graph_run (o : Oracle) (fuel : Nat) (q : String) (h : List String) : Option SqlAgentState :=
  match runLoop o fuel (startRun q h) with
  | none => none
  | some (.ok s) => some s
  | some (.error e) =>
    some { initState q h with
           final_response := some ("죄송합니다. 처리 중 오류가 발생했습니다: " ++ e.toMessage) }

/-- The successor of a run state when its step succeeds (used to spell out
concrete executions). -/
def stepOk (o : Oracle) (r : RunState) : RunState :=
  match stepNode o r with
  | .ok r2 => r2
  | .error _ => r

/-- The run states reachable from `r0` under oracle `o`. -/
inductive ReachFrom (o : Oracle) (r0 : RunState) : RunState → Prop where
  | refl : ReachFrom o r0 r0
  | step {r r2 : RunState} : ReachFrom o r0 r → stepNode o r = .ok r2 → ReachFrom o r0 r2

/-- A demo source profile for concrete runs. -/
def testDb : DbInfo :=
  { display_name := "TestDB", description := "demo database", profile_id := "db-1",
    profile_type := "mysql", host := "localhost", port := "3306",
    annotations_schema := some "Table employees(id, name)" }

/-- Oracle of the spec scenario in which the generator returns
`DROP TABLE employees;` on every attempt. -/
def dropOracle : Oracle :=
  { intentLlm := .ok "SQL", dbList := .ok [testDb], dbChoiceLlm := .ok "TestDB",
    genLlm := fun _ => .ok "DROP TABLE employees;",
    execApi := fun _ => .ok { code := "2400", message := "ok", data := .other },
    synthLlm := .ok "synthesized answer" }

/-- Oracle of the happy-path scenario: a safe query, a successful
execution, a successful synthesis. -/
def selectOracle : Oracle :=
  { intentLlm := .ok "SQL", dbList := .ok [testDb], dbChoiceLlm := .ok "TestDB",
    genLlm := fun _ => .ok "SELECT * FROM employees;",
    execApi := fun _ => .ok { code := "2400", message := "처리 성공",
                              data := .table ["name"] [[some "kim"]] },
    synthLlm := .ok "직원 목록은 kim 입니다." }

/-- The run state after `n` successful steps (used to spell out concrete
executions). -/
def runAfter (o : Oracle) : Nat → RunState → RunState
  | 0, r => r
  | n + 1, r => runAfter o n (stepOk o r)

/-- The happy-path oracle, except that the synthesis LLM call returns the
empty string. -/
def emptySynthOracle : Oracle :=
  { selectOracle with synthLlm := .ok "" }

/-- Invariant of reachable run states: the execution error counter is
zero (the embedded `execute_query` never raises, so the executor's
exception branch never runs inside the graph); the final response is
set exactly at END and unset before; the executor is only entered after
a clean validation; the validation counter stays below the ceiling
(the validator raises before the counter can reach it). -/
def Inv (r : RunState) : Prop :=
  r.s.execution_error_count = 0 ∧
  (if r.node = .terminal then r.s.final_response.isSome = true
   else r.s.final_response = none) ∧
  (r.node = .sql_executor → r.s.validation_error = none ∧ r.s.validation_error_count = 0) ∧
  r.s.validation_error_count < MAX_ERROR_COUNT

section Helpers

/-- Characters outside the whitespace code points are not whitespace. -/
theorem char_isWs_false (c : Char) (h32 : c.toNat ≠ 32) (h9 : c.toNat ≠ 9)
    (h13 : c.toNat ≠ 13) (h10 : c.toNat ≠ 10) : c.isWhitespace = false := by
  simp only [Char.isWhitespace]
  have e1 : (c = ' ') = False := by
    simp only [eq_iff_iff, iff_false]
    intro he; exact h32 (by rw [he]; rfl)
  have e2 : (c = '\t') = False := by
    simp only [eq_iff_iff, iff_false]
    intro he; exact h9 (by rw [he]; rfl)
  have e3 : (c = '\r') = False := by
    simp only [eq_iff_iff, iff_false]
    intro he; exact h13 (by rw [he]; rfl)
  have e4 : (c = '\n') = False := by
    simp only [eq_iff_iff, iff_false]
    intro he; exact h10 (by rw [he]; rfl)
  simp [e1, e2, e3, e4]

/-- Unfolding of `Char.ofNatAux`. -/
theorem char_ofNatAux_toNat (n : Nat) (h : n.isValidChar) :
    (Char.ofNatAux n h).toNat = n := by
  simp [Char.ofNatAux, Char.toNat, UInt32.toNat, UInt32.ofNat']

/-- Lowercasing an ASCII uppercase letter adds 32 to its code point. -/
theorem char_toLower_toNat_of_upper (c : Char) (h : 65 ≤ c.toNat ∧ c.toNat ≤ 90) :
    (Char.toLower c).toNat = c.toNat + 32 := by
  unfold Char.toLower
  rw [if_pos ⟨h.1, h.2⟩]
  have hval : Nat.isValidChar (c.toNat + 32) := Or.inl (by omega)
  unfold Char.ofNat
  rw [dif_pos hval]
  exact char_ofNatAux_toNat _ hval

/-- Lowercasing fixes every character that is not an ASCII uppercase
letter. -/
theorem char_toLower_eq_self (c : Char) (h : ¬(65 ≤ c.toNat ∧ c.toNat ≤ 90)) :
    Char.toLower c = c := by
  unfold Char.toLower
  rw [if_neg (by intro hc; exact h ⟨hc.1, hc.2⟩)]

/-- Lowercasing preserves the whitespace test, so lowercasing commutes
with whitespace tokenization. -/
theorem toLower_isWhitespace (c : Char) : (Char.toLower c).isWhitespace = c.isWhitespace := by
  by_cases h : 65 ≤ c.toNat ∧ c.toNat ≤ 90
  · have ht := char_toLower_toNat_of_upper c h
    rw [char_isWs_false (Char.toLower c) (by omega) (by omega) (by omega) (by omega),
        char_isWs_false c (by omega) (by omega) (by omega) (by omega)]
  · rw [char_toLower_eq_self c h]

/-- `splitWsAux` commutes with character-wise lowercasing. -/
theorem splitWsAux_map_toLower (cs : List Char) (acc : List Char) :
    splitWsAux (cs.map Char.toLower) (acc.map Char.toLower) =
      (splitWsAux cs acc).map lowerStr := by
  induction cs generalizing acc with
  | nil =>
    cases acc with
    | nil => simp [splitWsAux]
    | cons a as => simp [splitWsAux, lowerStr, List.map_reverse]
  | cons c cs ih =>
    simp only [List.map_cons, splitWsAux, toLower_isWhitespace]
    by_cases hw : c.isWhitespace
    · rw [if_pos hw, if_pos hw]
      cases acc with
      | nil => simpa using ih []
      | cons a as =>
        simp only [List.map_cons, List.isEmpty_cons, List.map_nil]
        have h2 := ih []
        simp only [List.map_nil] at h2
        simp [h2, lowerStr, List.map_reverse]
    · rw [if_neg hw, if_neg hw]
      simpa using ih (c :: acc)

/-- Tokenizing the lowercased query gives the lowercased tokens of the
query: `q.lower().split() = [t.lower() for t in q.split()]`. -/
theorem pySplit_lowerStr (s : String) : pySplit (lowerStr s) = (pySplit s).map lowerStr := by
  simpa [pySplit, lowerStr] using splitWsAux_map_toLower s.data []

/-- Every list starts with itself. -/
theorem startsWithList_refl (n : List Char) : startsWithList n n = true := by
  induction n with
  | nil => rfl
  | cons a as ih => simp [startsWithList, ih]

/-- A prefix of `h1` is a prefix of `h1 ++ h2`. -/
theorem startsWithList_append (n h1 h2 : List Char) (h : startsWithList n h1 = true) :
    startsWithList n (h1 ++ h2) = true := by
  induction n generalizing h1 with
  | nil => rfl
  | cons a as ih =>
    cases h1 with
    | nil => simp [startsWithList] at h
    | cons b bs =>
      simp only [startsWithList, Bool.and_eq_true] at h
      simp only [List.cons_append, startsWithList, Bool.and_eq_true]
      exact ⟨h.1, ih bs h.2⟩

/-- A prefix occurrence is an occurrence. -/
theorem occursIn_of_starts (n h1 : List Char) (h : startsWithList n h1 = true) :
    occursIn n h1 = true := by
  cases h1 with
  | nil => simpa [occursIn] using h
  | cons c rest => simp [occursIn, h]

/-- An occurrence in `h2` is an occurrence in `h1 ++ h2`. -/
theorem occursIn_append_right (n h1 h2 : List Char) (h : occursIn n h2 = true) :
    occursIn n (h1 ++ h2) = true := by
  induction h1 with
  | nil => simpa using h
  | cons c cs ih => simp [occursIn, ih]

/-- An occurrence in `h1` is an occurrence in `h1 ++ h2`. -/
theorem occursIn_append_left (n h1 h2 : List Char) (h : occursIn n h1 = true) :
    occursIn n (h1 ++ h2) = true := by
  induction h1 with
  | nil =>
    simp only [occursIn] at h
    cases n with
    | nil => exact occursIn_of_starts _ _ rfl
    | cons a as => simp [startsWithList] at h
  | cons c cs ih =>
    simp only [occursIn, Bool.or_eq_true] at h
    rcases h with h | h
    · exact occursIn_of_starts _ _ (by simpa using startsWithList_append n (c :: cs) h2 h)
    · simp [occursIn, ih h]

/-- Substring containment is preserved by appending on the right. -/
theorem strContains_append_left (a b n : String) (h : strContains a n = true) :
    strContains (a ++ b) n = true := by
  simp only [strContains] at h ⊢
  rw [String.data_append]
  exact occursIn_append_left _ _ _ h

/-- Substring containment is preserved by prepending. -/
theorem strContains_append_right (a b n : String) (h : strContains b n = true) :
    strContains (a ++ b) n = true := by
  simp only [strContains] at h ⊢
  rw [String.data_append]
  exact occursIn_append_right _ _ _ h

/-- Every string occurs in itself. -/
theorem strContains_self (n : String) : strContains n n = true :=
  occursIn_of_starts _ _ (startsWithList_refl _)

/-- A string occurs in any string that embeds it contiguously. -/
theorem strContains_sandwich (a n b : String) : strContains (a ++ (n ++ b)) n = true :=
  strContains_append_right _ _ _ (strContains_append_left _ _ _ (strContains_self n))

/-- Appending to a non-empty string gives a non-empty string. -/
theorem append_ne_empty_left (a b : String) (h : a ≠ "") : (a ++ b) ≠ "" := by
  intro he
  have h2 := congrArg String.data he
  rw [String.data_append] at h2
  rcases List.append_eq_nil.mp h2 with ⟨h3, _⟩
  exact h (by cases a; simp at h3; simp [h3])

/-- The validator's error message is never the empty string, hence always
truthy in Python. -/
theorem validation_error_message_ne_empty (ks : List String) :
    validation_error_message ks ≠ "" := by
  unfold validation_error_message
  apply append_ne_empty_left
  apply append_ne_empty_left
  decide

end Helpers

section InvariantMachinery

/-- One graph step preserves the run invariant. -/
theorem inv_step {o : Oracle} {r r2 : RunState} (h1 : Inv r) (h2 : stepNode o r = .ok r2) :
    Inv r2 := by
  obtain ⟨he, hf, hx, hv⟩ := h1
  cases hn : r.node with
  | intent_classifier =>
    rw [hn] at hf
    simp only [reduceIte, reduceCtorEq] at hf
    cases hllm : o.intentLlm with
    | error e =>
      simp only [stepNode, hn, hllm, intent_classifier_node, Except.ok.injEq] at h2
      subst h2
      refine ⟨he, ?_, ?_, hv⟩
      · simp [intentRoute, route_after_intent_classification, hf]
      · simp [intentRoute, route_after_intent_classification]
    | ok lbl =>
      simp only [stepNode, hn, hllm, intent_classifier_node, Except.ok.injEq] at h2
      subst h2
      refine ⟨he, ?_, ?_, hv⟩
      · simp [intentRoute, route_after_intent_classification, hf]
        split <;> simp
      · simp only [intentRoute, route_after_intent_classification]
        intro hcontra
        split at hcontra
        · split at hcontra <;> simp at hcontra
        · simp at hcontra
  | db_classifier =>
    rw [hn] at hf
    simp only [reduceIte, reduceCtorEq] at hf
    cases hl : o.dbList with
    | error e => simp [stepNode, hn, hl, db_classifier_node] at h2
    | ok dbs =>
      cases dbs with
      | nil => simp [stepNode, hn, hl, db_classifier_node] at h2
      | cons d0 rest =>
        cases hc : o.dbChoiceLlm with
        | error e => simp [stepNode, hn, hl, hc, db_classifier_node] at h2
        | ok raw =>
          simp only [stepNode, hn, hl, hc, db_classifier_node, Except.ok.injEq] at h2
          subst h2
          exact ⟨he, by simpa using hf, by simp, hv⟩
  | unsupported_question =>
    simp only [stepNode, hn, Except.ok.injEq] at h2
    subst h2
    exact ⟨he, by simp [unsupported_question_node], by simp, hv⟩
  | sql_generator =>
    rw [hn] at hf
    simp only [reduceIte, reduceCtorEq] at hf
    cases hg : o.genLlm r.genCalls with
    | error e => simp [stepNode, hn, hg, sql_generator_node] at h2
    | ok q =>
      simp only [stepNode, hn, hg, sql_generator_node, Except.ok.injEq] at h2
      subst h2
      exact ⟨he, by simpa using hf, by simp, hv⟩
  | sql_validator =>
    rw [hn] at hf
    simp only [reduceIte, reduceCtorEq] at hf
    by_cases hks : (found_keywords r.s.sql_query).isEmpty
    · simp only [stepNode, hn, sql_validator_run, hks, if_pos, Except.ok.injEq] at h2
      subst h2
      refine ⟨he, ?_, ?_, by simp [MAX_ERROR_COUNT]⟩
      · simp only [validatorRoute]
        split
        · simpa using hf
        · split <;> simpa using hf
      · intro _; simp
    · by_cases hcl : MAX_ERROR_COUNT ≤ r.s.validation_error_count + 1
      · simp [stepNode, hn, sql_validator_run, hks, hcl] at h2
      · simp only [stepNode, hn, sql_validator_run, hks, hcl, if_neg, if_false,
          Bool.false_eq_true, Except.ok.injEq] at h2
        subst h2
        refine ⟨he, ?_, ?_, by simp only [MAX_ERROR_COUNT] at hcl ⊢; omega⟩
        · simp only [validatorRoute]
          split
          · simpa using hf
          · split <;> simpa using hf
        · intro hcontra
          exfalso
          simp only [validatorRoute] at hcontra
          split at hcontra
          · simp at hcontra
          split at hcontra
          · rename_i hlbl1 hlbl2
            simp only [should_execute_sql] at hlbl2
            split at hlbl2
            · simp at hlbl2
            split at hlbl2
            · simp at hlbl2
            · rename_i htruthy
              simp only [pyTruthy, Bool.not_eq_true, beq_iff_eq] at htruthy
              exact absurd (by simpa using htruthy)
                (validation_error_message_ne_empty (found_keywords r.s.sql_query))
          · simp at hcontra
  | sql_executor =>
    rw [hn] at hf
    simp only [reduceIte, reduceCtorEq] at hf
    simp only [stepNode, hn, Except.ok.injEq] at h2
    subst h2
    refine ⟨by simp [sql_executor_node], ?_, ?_, by simp [sql_executor_node, MAX_ERROR_COUNT]⟩
    · simp only [executorRoute]
      split
      · simpa [sql_executor_node] using hf
      · simpa [sql_executor_node] using hf
    · intro hcontra
      exfalso
      simp only [executorRoute] at hcontra
      split at hcontra <;> simp_all
  | response_synthesizer =>
    rw [hn] at hf
    simp only [reduceIte, reduceCtorEq] at hf
    cases hs : o.synthLlm with
    | error e =>
      simp only [stepNode, hn, hs, response_synthesizer_node, Except.ok.injEq] at h2
      subst h2
      exact ⟨he, by simp, by simp, hv⟩
    | ok txt =>
      simp only [stepNode, hn, hs, response_synthesizer_node, Except.ok.injEq] at h2
      subst h2
      exact ⟨he, by simp, by simp, hv⟩
  | terminal =>
    simp only [stepNode, hn, Except.ok.injEq] at h2
    subst h2
    exact ⟨he, by rw [hn] at hf ⊢; exact hf, by rw [hn] at hx ⊢; exact hx, hv⟩



/-- The caller-built initial run state satisfies the invariant. -/
theorem inv_start (q : String) (h : List String) : Inv (startRun q h) := by
  refine ⟨rfl, ?_, ?_, by simp [startRun, initState, MAX_ERROR_COUNT]⟩
  · simp [startRun, initState]
  · simp [startRun]

/-- The invariant holds at every reachable run state. -/
theorem inv_reach {o : Oracle} {r0 r : RunState} (h0 : Inv r0) (h : ReachFrom o r0 r) :
    Inv r := by
  induction h with
  | refl => exact h0
  | step hr hst ih => exact inv_step ih hst

/-- Reachability is preserved by prepending one step. -/
theorem reachFrom_prepend {o : Oracle} {r r2 r3 : RunState}
    (h : stepNode o r = .ok r2) (hr : ReachFrom o r2 r3) : ReachFrom o r r3 := by
  induction hr with
  | refl => exact .step .refl h
  | step hr2 hst ih => exact .step ih hst

/-- A `runLoop` that reaches END passes through a reachable terminal run state carrying the returned agent state. -/
theorem runLoop_ok_reach {o : Oracle} (fuel : Nat) (r : RunState) (s : SqlAgentState)
    (h : runLoop o fuel r = some (.ok s)) :
    ∃ r2, ReachFrom o r r2 ∧ r2.node = .terminal ∧ r2.s = s := by
  induction fuel generalizing r with
  | zero =>
    rw [runLoop] at h
    by_cases ht : r.node == .terminal
    · rw [if_pos ht] at h
      exact ⟨r, .refl, by simpa using ht, by simpa using h⟩
    · rw [if_neg ht] at h; cases h
  | succ n ih =>
    rw [runLoop] at h
    by_cases ht : r.node == .terminal
    · rw [if_pos ht] at h
      exact ⟨r, .refl, by simpa using ht, by simpa using h⟩
    · rw [if_neg ht] at h
      cases hstep : stepNode o r with
      | error e => rw [hstep] at h; simp at h
      | ok r2 =>
        rw [hstep] at h
        obtain ⟨r3, hr3, hterm, hs⟩ := ih r2 h
        exact ⟨r3, reachFrom_prepend hstep hr3, hterm, hs⟩

end InvariantMachinery

section Claims

/-- C1 (corrected), counterexample: a failed execution attempt in which the
data-access layer reports a data-layer error code (a non-2400 response).
The stage takes its success branch: `executionErrorCount` is reset to 0
rather than incremented by 1, and the stored error description does not
carry the failure marker the routing layer tests for. -/
theorem C1_counterexample :
    (sql_executor_node
        (.returns (execute_query
          (.ok { code := "4500", message := "syntax error near SELECT", data := .other })))
        (initState "q" [])).execution_error_count = 0 ∧
    (sql_executor_node
        (.returns (execute_query
          (.ok { code := "4500", message := "syntax error near SELECT", data := .other })))
        (initState "q" [])).execution_result =
      some "쿼리 실행 실패: syntax error near SELECT (코드: 4500)" ∧
    strContains "쿼리 실행 실패: syntax error near SELECT (코드: 4500)" "오류" = false := by
  decide

/-- C1 (corrected), amended claim: when the data-access call raises into
the stage, the stage stores the marked error description "실행 오류: ...",
resets `validationErrorCount`, increments `executionErrorCount` by exactly
one, and returns the state instead of raising. But the data-access layer
itself catches timeouts, connection errors and data-layer error codes and
returns an error string; the stage then takes its success branch,
resetting both counters to 0. -/
theorem C1_execution_failure_state (s : SqlAgentState) (e : String) (api : ApiOutcome) :
    (sql_executor_node (.raises e) s).execution_result = some ("실행 오류: " ++ e) ∧
    strContains ("실행 오류: " ++ e) "오류" = true ∧
    (sql_executor_node (.raises e) s).validation_error_count = 0 ∧
    (sql_executor_node (.raises e) s).execution_error_count = s.execution_error_count + 1 ∧
    (sql_executor_node (.returns (execute_query api)) s).validation_error_count = 0 ∧
    (sql_executor_node (.returns (execute_query api)) s).execution_error_count = 0 ∧
    (sql_executor_node (.returns (execute_query api)) s).execution_result
      = some (execute_query api) := by
  refine ⟨rfl, ?_, rfl, rfl, rfl, rfl, rfl⟩
  exact strContains_append_left "실행 오류: " e "오류" (by decide)

/-- Witness for C1: a concrete raised timeout increments the execution
counter with the marked message, and the concrete data-layer error code
response resets it through the success branch. -/
theorem C1_witness :
    (sql_executor_node (.raises "timeout") (initState "q" [])).execution_result
      = some ("실행 오류: " ++ "timeout") ∧
    (sql_executor_node (.raises "timeout") (initState "q" [])).execution_error_count
      = (initState "q" []).execution_error_count + 1 ∧
    (sql_executor_node
        (.returns (execute_query (.ok { code := "4500", message := "m", data := .other })))
        (initState "q" [])).execution_error_count = 0 :=
  ⟨(C1_execution_failure_state (initState "q" []) "timeout"
      (.ok { code := "4500", message := "m", data := .other })).1,
   (C1_execution_failure_state (initState "q" []) "timeout"
      (.ok { code := "4500", message := "m", data := .other })).2.2.2.1,
   (C1_execution_failure_state (initState "q" []) "timeout"
      (.ok { code := "4500", message := "m", data := .other })).2.2.2.2.2.1⟩

/-- C4 (confirmed): the validator rejects (stores a validation error)
exactly when some whitespace token of the query, lowercased, is in the
deny-list; on rejection the error names the offending keywords and the
counter is incremented by one; on acceptance the error is cleared and the
counter reset to 0. The embedded validator is a pure function of the
state (deterministic, no I/O). -/
theorem C4_validator_deny_list (s : SqlAgentState) :
    ((sql_validator_run s).1.validation_error ≠ none ↔
       ∃ t ∈ pySplit s.sql_query, lowerStr t ∈ dangerous_keywords) ∧
    (found_keywords s.sql_query ≠ [] →
       (sql_validator_run s).1.validation_error
           = some (validation_error_message (found_keywords s.sql_query)) ∧
       (sql_validator_run s).1.validation_error_count = s.validation_error_count + 1) ∧
    (found_keywords s.sql_query = [] →
       (sql_validator_run s).1.validation_error = none ∧
       (sql_validator_run s).1.validation_error_count = 0) := by
  have hiff : (found_keywords s.sql_query ≠ []) ↔
      ∃ t ∈ pySplit s.sql_query, lowerStr t ∈ dangerous_keywords := by
    unfold found_keywords
    rw [Ne, List.filter_eq_nil_iff]
    push_neg
    constructor
    · rintro ⟨k, hk, hmem⟩
      have : k ∈ pySplit (lowerStr s.sql_query) := by
        simpa using List.elem_iff.mp hmem
      rw [pySplit_lowerStr] at this
      obtain ⟨t, ht, rfl⟩ := List.mem_map.mp this
      exact ⟨t, ht, hk⟩
    · rintro ⟨t, ht, hk⟩
      refine ⟨lowerStr t, hk, ?_⟩

      have : lowerStr t ∈ pySplit (lowerStr s.sql_query) := by
        rw [pySplit_lowerStr]
        exact List.mem_map.mpr ⟨t, ht, rfl⟩
      exact List.elem_iff.mpr this
  refine ⟨?_, ?_, ?_⟩
  · unfold sql_validator_run
    by_cases hks : (found_keywords s.sql_query).isEmpty
    · rw [if_pos hks]
      constructor
      · intro hfalse
        exact absurd rfl hfalse
      · intro hex
        exact absurd (List.isEmpty_iff.mp hks) (hiff.mpr hex)
    · have hne : found_keywords s.sql_query ≠ [] := by
        intro hc
        rw [hc] at hks
        simp at hks
      rw [if_neg hks]
      by_cases hcl : MAX_ERROR_COUNT ≤ s.validation_error_count + 1
      · rw [if_pos hcl]
        constructor
        · intro _
          exact hiff.mp hne
        · intro _
          simp
      · rw [if_neg hcl]
        constructor
        · intro _
          exact hiff.mp hne
        · intro _
          simp
  · intro hne
    have hks : (found_keywords s.sql_query).isEmpty = false := by
      cases hfk : found_keywords s.sql_query with
      | nil => exact absurd hfk hne
      | cons a as => simp
    unfold sql_validator_run
    rw [if_neg (by simp [hks])]
    by_cases hcl : MAX_ERROR_COUNT ≤ s.validation_error_count + 1
    · rw [if_pos hcl]
      exact ⟨rfl, rfl⟩
    · rw [if_neg hcl]
      exact ⟨rfl, rfl⟩
  · intro hnil
    unfold sql_validator_run
    rw [if_pos (by simp [hnil])]
    exact ⟨rfl, rfl⟩



/-- Witness for C4: the spec scenario query `DROP TABLE employees;` is
rejected with a message naming "drop" and an incremented counter, and a
deny-listed token indeed exists among its lowercased tokens. -/
theorem C4_witness :
    (∃ t ∈ pySplit "DROP TABLE employees;", lowerStr t ∈ dangerous_keywords) ∧
    (sql_validator_run { initState "q" [] with sql_query := "DROP TABLE employees;" }).1.validation_error
        = some (validation_error_message
            (found_keywords ({ initState "q" [] with sql_query := "DROP TABLE employees;"}).sql_query)) ∧
    (sql_validator_run { initState "q" [] with sql_query := "DROP TABLE employees;" }).1.validation_error_count
        = ({ initState "q" [] with sql_query := "DROP TABLE employees;"} : SqlAgentState).validation_error_count + 1 :=
  ⟨(C4_validator_deny_list { initState "q" [] with sql_query := "DROP TABLE employees;" }).1.mp
      (by decide),
   ((C4_validator_deny_list { initState "q" [] with sql_query := "DROP TABLE employees;" }).2.1
      (by decide)).1,
   ((C4_validator_deny_list { initState "q" [] with sql_query := "DROP TABLE employees;" }).2.1
      (by decide)).2⟩

/-- C9 (corrected), counterexample: the label " sql " matches the SQL
marker after whitespace and case normalization, yet the classifier stores
the case-sensitive trimmed label "sql" (not "SQL") and the router sends
the run to the unsupported-question handler; and the label "weather" is
stored verbatim, not replaced by "OTHER". -/
theorem C9_counterexample :
    lowerStr (trimStr " sql ") = lowerStr "SQL" ∧
    (intent_classifier_node (.ok " sql ") (initState "q" [])).intent = "sql" ∧
    (intent_classifier_node (.ok " sql ") (initState "q" [])).intent ≠ "SQL" ∧
    route_after_intent_classification (intent_classifier_node (.ok " sql ") (initState "q" []))
      = "unsupported_question" ∧
    (intent_classifier_node (.ok "weather") (initState "q" [])).intent ≠ "OTHER" := by
  decide

/-- C9 (corrected), amended claim: the classifier stores the
whitespace-trimmed label verbatim, routing reaches the source selector
exactly when that trimmed label is the exact, case-sensitive string
"SQL"; on any port error the intent defaults to "SQL" (fail open), the
node never raises, and the failed run proceeds to the source selector. -/
theorem C9_intent_classifier (s : SqlAgentState) (lbl e : String) :
    (intent_classifier_node (.ok lbl) s).intent = trimStr lbl ∧
    (route_after_intent_classification (intent_classifier_node (.ok lbl) s) = "db_classifier"
       ↔ trimStr lbl = "SQL") ∧
    (intent_classifier_node (.error e) s).intent = "SQL" ∧
    route_after_intent_classification (intent_classifier_node (.error e) s) = "db_classifier" := by
  refine ⟨rfl, ?_, rfl, rfl⟩
  simp only [route_after_intent_classification, intent_classifier_node]
  by_cases hsql : trimStr lbl = "SQL"
  · rw [if_pos (by simpa using hsql)]
    simp [hsql]
  · rw [if_neg (by simpa using hsql)]
    simp [hsql]

/-- Witness for C9: the exact label "SQL" routes to the source selector,
and a raising classification call defaults the intent to "SQL". -/
theorem C9_witness :
    route_after_intent_classification (intent_classifier_node (.ok "SQL") (initState "q" []))
      = "db_classifier" ∧
    (intent_classifier_node (.error "boom") (initState "q" [])).intent = "SQL" :=
  ⟨(C9_intent_classifier (initState "q" []) "SQL" "boom").2.1.mpr (by decide),
   (C9_intent_classifier (initState "q" []) "SQL" "boom").2.2.1⟩

/-- C10 (confirmed): the post-execution router detects failure by the
substring "오류" in the stored execution result, and only by it below the
ceiling; the data-access layer turns a raised backend error into a string
containing that substring instead of raising; when the executor's success
branch stores such a string, the router regenerates while
`executionErrorCount` is 0; and in every reachable run state the
execution error counter is 0, so these failures never move toward the
retry ceiling. -/
theorem C10_silent_execution_failures (s t : SqlAgentState) (res e : String)
    (o : Oracle) (q : String) (hist : List String) (r : RunState)
    (hr : ReachFrom o (startRun q hist) r)
    (hres : strContains res "오류" = true)
    (ht : t.execution_error_count < MAX_ERROR_COUNT) :
    should_retry_or_respond t
      = (if strContains (t.execution_result.getD "") "오류" then "regenerate"
         else "synthesize_success") ∧
    execute_query (.raises e) = "쿼리 실행 중 오류 발생: " ++ e ∧
    strContains (execute_query (.raises e)) "오류" = true ∧
    should_retry_or_respond (sql_executor_node (.returns res) s) = "regenerate" ∧
    (sql_executor_node (.returns res) s).execution_error_count = 0 ∧
    r.s.execution_error_count = 0 := by
  refine ⟨?_, rfl, ?_, ?_, rfl, (inv_reach (inv_start q hist) hr).1⟩
  · rw [should_retry_or_respond, if_neg (by omega)]
  · exact strContains_append_left "쿼리 실행 중 오류 발생: " e "오류" (by decide)
  · show should_retry_or_respond
      { s with execution_result := some res, validation_error_count := 0,
               execution_error_count := 0 } = "regenerate"
    rw [should_retry_or_respond]
    rw [if_neg (by show ¬MAX_ERROR_COUNT ≤ 0; decide)]
    simpa using hres

/-- Witness for C10: a timeout caught by the data-access layer becomes the
string "쿼리 실행 중 오류 발생: timeout"; storing it through the executor's
success branch makes the router regenerate with the execution counter
still 0, at the reachable initial run state. -/
theorem C10_witness :
    should_retry_or_respond
        (sql_executor_node (.returns "쿼리 실행 중 오류 발생: timeout") (initState "q" []))
      = "regenerate" ∧
    (sql_executor_node (.returns "쿼리 실행 중 오류 발생: timeout")
        (initState "q" [])).execution_error_count = 0 ∧
    (startRun "q" []).s.execution_error_count = 0 :=
  have h := C10_silent_execution_failures (initState "q" []) (initState "q" [])
    "쿼리 실행 중 오류 발생: timeout" "timeout" dropOracle "q" [] (startRun "q" [])
    .refl (by decide) (by decide)
  ⟨h.2.2.2.1, h.2.2.2.2.1, h.2.2.2.2.2⟩



/-- C2 (corrected), counterexample: with the generator returning
`DROP TABLE employees;` on every attempt, the validator rejects three
consecutive times, but after the 3rd failure the validator raises
MaxRetryExceededException: the run never presents a routing decision with
the counter at the ceiling, the synthesizer is never visited, and the run
ends with the controller's templated fallback instead of a
ResponseSynthesizer routing decision. -/
theorem C2_counterexample :
    runNodes dropOracle 20 (startRun "Show all employees" []) =
      [.intent_classifier, .db_classifier, .sql_generator, .sql_validator,
       .sql_generator, .sql_validator, .sql_generator, .sql_validator] ∧
    Node.response_synthesizer ∉ runNodes dropOracle 20 (startRun "Show all employees" []) ∧
    graph_run dropOracle 20 "Show all employees" [] =
      some { initState "Show all employees" [] with
             final_response :=
               some "죄송합니다. 처리 중 오류가 발생했습니다: SQL 검증 실패가 3회 반복됨 (최대 재시도 3회 초과)" } := by
  decide

/-- C2 (corrected), amended claim: the routing function itself gives the
ceiling check priority (counter at the ceiling routes to the synthesizer
regardless of the error content, below the ceiling a set error routes to
regeneration, otherwise to execution); but every state the validator
actually returns to the routing decision has a counter strictly below the
ceiling, because on the 3rd consecutive failure the validator raises
MaxRetryExceededException instead of returning, so the run aborts through
the controller's exception fallback rather than routing to the
synthesizer. -/
theorem C2_validation_routing (s t : SqlAgentState) :
    (MAX_ERROR_COUNT ≤ s.validation_error_count →
       should_execute_sql s = "synthesize_failure") ∧
    (s.validation_error_count < MAX_ERROR_COUNT → pyTruthy s.validation_error = true →
       should_execute_sql s = "regenerate") ∧
    (s.validation_error_count < MAX_ERROR_COUNT → pyTruthy s.validation_error = false →
       should_execute_sql s = "execute") ∧
    (∀ s2, sql_validator_run t = (s2, none) →
       s2.validation_error_count < MAX_ERROR_COUNT) ∧
    (found_keywords t.sql_query ≠ [] → MAX_ERROR_COUNT ≤ t.validation_error_count + 1 →
       (sql_validator_run t).2 = some (.maxRetryExceeded
         (maxRetryExceededMessage
           ("SQL 검증 실패가 " ++ Nat.repr MAX_ERROR_COUNT ++ "회 반복됨") MAX_ERROR_COUNT))) := by
  refine ⟨?_, ?_, ?_, ?_, ?_⟩
  · intro hc
    rw [should_execute_sql, if_pos hc]
  · intro hc htr
    rw [should_execute_sql, if_neg (by omega), if_pos htr]
  · intro hc htr
    rw [should_execute_sql, if_neg (by omega), if_neg (by simp [htr])]
  · intro s2 hrun
    by_cases hks : (found_keywords t.sql_query).isEmpty
    · rw [sql_validator_run, if_pos hks] at hrun
      cases hrun
      show 0 < MAX_ERROR_COUNT
      decide
    · by_cases hcl : MAX_ERROR_COUNT ≤ t.validation_error_count + 1
      · rw [sql_validator_run, if_neg hks, if_pos hcl] at hrun
        cases hrun
      · rw [sql_validator_run, if_neg hks, if_neg hcl] at hrun
        cases hrun
        show t.validation_error_count + 1 < MAX_ERROR_COUNT
        omega
  · intro hne hcl
    have hks : ¬(found_keywords t.sql_query).isEmpty := by
      cases hfk : found_keywords t.sql_query with
      | nil => exact absurd hfk hne
      | cons a as => simp
    rw [sql_validator_run, if_neg hks, if_pos hcl]

/-- Witness for C2: at the ceiling the routing function chooses the
synthesizer; below it, a truthy error regenerates and a clean state
executes; a validator pass that returns keeps the counter below 3; and a
2-failure state that rejects again raises MaxRetryExceededException. -/
theorem C2_witness :
    should_execute_sql { initState "q" [] with validation_error_count := 3 }
      = "synthesize_failure" ∧
    should_execute_sql
        { initState "q" [] with validation_error_count := 1, validation_error := some "err" }
      = "regenerate" ∧
    should_execute_sql (initState "q" []) = "execute" ∧
    ((sql_validator_run { initState "q" [] with sql_query := "SELECT 1;" }).1.validation_error_count
        < MAX_ERROR_COUNT) ∧
    (sql_validator_run
        { initState "q" [] with sql_query := "DROP TABLE employees;", validation_error_count := 2 }).2
      = some (.maxRetryExceeded
          (maxRetryExceededMessage
            ("SQL 검증 실패가 " ++ Nat.repr MAX_ERROR_COUNT ++ "회 반복됨") MAX_ERROR_COUNT)) :=
  ⟨(C2_validation_routing { initState "q" [] with validation_error_count := 3 }
      (initState "q" [])).1 (by decide),
   (C2_validation_routing
       { initState "q" [] with validation_error_count := 1, validation_error := some "err" }
       (initState "q" [])).2.1 (by decide) (by decide),
   (C2_validation_routing (initState "q" []) (initState "q" [])).2.2.1 (by decide) (by decide),
   (C2_validation_routing (initState "q" [])
       { initState "q" [] with sql_query := "SELECT 1;" }).2.2.2.1 _ (by decide),
   (C2_validation_routing (initState "q" [])
       { initState "q" [] with sql_query := "DROP TABLE employees;", validation_error_count := 2
       }).2.2.2.2 (by decide) (by decide)⟩

/-- C3 (confirmed): in every reachable run state of a workflow run started
from the caller-built initial state, the two error counters are never
simultaneously non-zero (indeed, inside the composed graph the execution
counter is always 0, because the embedded data-access layer returns error
strings instead of raising). -/
theorem C3_counters_never_both_nonzero (o : Oracle) (q : String) (hist : List String)
    (r : RunState) (hr : ReachFrom o (startRun q hist) r) :
    ¬(0 < r.s.validation_error_count ∧ 0 < r.s.execution_error_count) := by
  intro hc
  have hinv := inv_reach (inv_start q hist) hr
  rw [hinv.1] at hc
  exact absurd hc.2 (lt_irrefl 0)

/-- Witness for C3: the run state reached under the deny-listed-query
oracle after four steps (one validation failure recorded) has the
validation counter positive and the execution counter zero, and the
theorem applies to it. -/
theorem C3_witness :
    ¬(0 < (runAfter dropOracle 4 (startRun "q" [])).s.validation_error_count ∧
      0 < (runAfter dropOracle 4 (startRun "q" [])).s.execution_error_count) :=
  have h1 : stepNode dropOracle (startRun "q" [])
      = .ok (runAfter dropOracle 1 (startRun "q" [])) := by decide
  have h2 : stepNode dropOracle (runAfter dropOracle 1 (startRun "q" []))
      = .ok (runAfter dropOracle 2 (startRun "q" [])) := by decide
  have h3 : stepNode dropOracle (runAfter dropOracle 2 (startRun "q" []))
      = .ok (runAfter dropOracle 3 (startRun "q" [])) := by decide
  have h4 : stepNode dropOracle (runAfter dropOracle 3 (startRun "q" []))
      = .ok (runAfter dropOracle 4 (startRun "q" [])) := by decide
  C3_counters_never_both_nonzero dropOracle "q" [] _
    (.step (.step (.step (.step .refl h1) h2) h3) h4)

/-- C5 (confirmed): the executor is entered only through the validator's
"execute" routing decision, and every reachable run state about to
execute the query has a cleared validation error and a validation counter
of 0 (hence below the ceiling): the candidate query is executed only when
the immediately preceding validation pass succeeded. -/
theorem C5_executor_only_after_clean_validation (o : Oracle) (q : String)
    (hist : List String) (r : RunState) (hr : ReachFrom o (startRun q hist) r) :
    (r.node = .sql_executor →
       r.s.validation_error = none ∧ r.s.validation_error_count = 0 ∧
       r.s.validation_error_count < MAX_ERROR_COUNT) ∧
    (∀ r1 r2 : RunState, stepNode o r1 = .ok r2 → r2.node = .sql_executor →
       r1.node = .sql_validator ∧ should_execute_sql r2.s = "execute") := by
  constructor
  · intro hx
    have hinv := inv_reach (inv_start q hist) hr
    obtain ⟨h1, h2⟩ := hinv.2.2.1 hx
    exact ⟨h1, h2, by rw [h2]; decide⟩
  · intro r1 r2 hstep hx2
    cases hn : r1.node with
    | intent_classifier =>
      cases hllm : o.intentLlm with
      | error e =>
        simp only [stepNode, hn, hllm, intent_classifier_node, Except.ok.injEq] at hstep
        subst hstep
        simp only [intentRoute] at hx2
        split at hx2 <;> simp at hx2
      | ok lbl =>
        simp only [stepNode, hn, hllm, intent_classifier_node, Except.ok.injEq] at hstep
        subst hstep
        simp only [intentRoute] at hx2
        split at hx2 <;> simp at hx2
    | db_classifier =>
      cases hl : o.dbList with
      | error e => simp [stepNode, hn, hl, db_classifier_node] at hstep
      | ok dbs =>
        cases dbs with
        | nil => simp [stepNode, hn, hl, db_classifier_node] at hstep
        | cons d0 rest =>
          cases hc : o.dbChoiceLlm with
          | error e => simp [stepNode, hn, hl, hc, db_classifier_node] at hstep
          | ok raw =>
            simp only [stepNode, hn, hl, hc, db_classifier_node, Except.ok.injEq] at hstep
            subst hstep
            simp at hx2
    | unsupported_question =>
      simp only [stepNode, hn, Except.ok.injEq] at hstep
      subst hstep
      simp at hx2
    | sql_generator =>
      cases hg : o.genLlm r1.genCalls with
      | error e => simp [stepNode, hn, hg, sql_generator_node] at hstep
      | ok qq =>
        simp only [stepNode, hn, hg, sql_generator_node, Except.ok.injEq] at hstep
        subst hstep
        simp at hx2
    | sql_validator =>
      refine ⟨rfl, ?_⟩
      cases hval : sql_validator_run r1.s with
      | mk s2 eopt =>
        cases eopt with
        | some e => simp [stepNode, hn, hval] at hstep
        | none =>
          simp only [stepNode, hn, hval, Except.ok.injEq] at hstep
          subst hstep
          simp only [validatorRoute] at hx2 ⊢
          split at hx2
          · simp at hx2
          · split at hx2
            · rename_i hlbl
              simpa using hlbl
            · simp at hx2
    | sql_executor =>
      simp only [stepNode, hn, Except.ok.injEq] at hstep
      subst hstep
      simp only [executorRoute] at hx2
      split at hx2 <;> simp at hx2
    | response_synthesizer =>
      cases hs : o.synthLlm with
      | error e =>
        simp only [stepNode, hn, hs, response_synthesizer_node, Except.ok.injEq] at hstep
        subst hstep
        simp at hx2
      | ok txt =>
        simp only [stepNode, hn, hs, response_synthesizer_node, Except.ok.injEq] at hstep
        subst hstep
        simp at hx2
    | terminal =>
      simp only [stepNode, hn, Except.ok.injEq] at hstep
      subst hstep
      rw [hn] at hx2
      cases hx2

/-- Witness for C5: under the happy-path oracle the run reaches the
executor after four steps, and there the validation error is cleared with
the counter at 0; moreover the concrete step into the executor comes from
the validator with the "execute" decision. -/
theorem C5_witness :
    ((runAfter selectOracle 4 (startRun "q" [])).s.validation_error = none ∧
     (runAfter selectOracle 4 (startRun "q" [])).s.validation_error_count = 0 ∧
     (runAfter selectOracle 4 (startRun "q" [])).s.validation_error_count < MAX_ERROR_COUNT) ∧
    ((runAfter selectOracle 3 (startRun "q" [])).node = .sql_validator ∧
     should_execute_sql (runAfter selectOracle 4 (startRun "q" [])).s = "execute") :=
  have h1 : stepNode selectOracle (startRun "q" [])
      = .ok (runAfter selectOracle 1 (startRun "q" [])) := by decide
  have h2 : stepNode selectOracle (runAfter selectOracle 1 (startRun "q" []))
      = .ok (runAfter selectOracle 2 (startRun "q" [])) := by decide
  have h3 : stepNode selectOracle (runAfter selectOracle 2 (startRun "q" []))
      = .ok (runAfter selectOracle 3 (startRun "q" [])) := by decide
  have h4 : stepNode selectOracle (runAfter selectOracle 3 (startRun "q" []))
      = .ok (runAfter selectOracle 4 (startRun "q" [])) := by decide
  have hreach : ReachFrom selectOracle (startRun "q" [])
      (runAfter selectOracle 4 (startRun "q" [])) :=
    .step (.step (.step (.step .refl h1) h2) h3) h4
  have h := C5_executor_only_after_clean_validation selectOracle "q" [] _ hreach
  ⟨h.1 (by decide),
   h.2 (runAfter selectOracle 3 (startRun "q" [])) (runAfter selectOracle 4 (startRun "q" []))
     (by decide) (by decide)⟩



/-- C6 (corrected), counterexample: the 3rd consecutive validation
rejection — a retryable-category error — escapes the graph as a
MaxRetryExceededException instead of being absorbed into a further
generation attempt. -/
theorem C6_counterexample :
    runLoop dropOracle 20 (startRun "q" []) =
      some (.error (.maxRetryExceeded "SQL 검증 실패가 3회 반복됨 (최대 재시도 3회 초과)")) := by
  decide

/-- C6 (corrected), amended claim: zero available sources and a
generation-stage parse failure raise (fatal errors), surfaced through the
controller's templated error result; a below-ceiling validation rejection
is absorbed — routed back to the generator with the rejection reason
injected into the next generation prompt; an execution-stage error never
escapes either — the executor stores the marked error string and the
router sends the run back to the generator — but it is NOT injected into
the feedback context: the executor's success branch resets
`executionErrorCount` to 0, so the feedback builder's execution branch
(guarded by that counter being positive) never fires and the feedback
block built after such a failure is empty; and the 3rd consecutive
validation rejection raises MaxRetryExceededException, surfaced by the
controller as the same templated error-result response. -/
theorem C6_error_propagation (choice : Except String String) (e res : String)
    (t s0 u : SqlAgentState) (o : Oracle) (fuel : Nat) (q : String) (hist : List String) :
    db_classifier_node (.ok []) choice s0
      = .error (.databaseConnection "사용 가능한 DBMS가 없습니다.") ∧
    sql_generator_node (.error e) s0 = .error (.executionFailure ("SQL 생성 실패: " ++ e)) ∧
    (∀ s2, sql_validator_run t = (s2, none) → found_keywords t.sql_query ≠ [] →
       validatorRoute (should_execute_sql s2) = .sql_generator ∧
       strContains (build_error_feedback s2)
         (validation_error_message (found_keywords t.sql_query)) = true) ∧
    (strContains res "오류" = true →
       executorRoute (should_retry_or_respond (sql_executor_node (.returns res) u))
         = .sql_generator) ∧
    build_error_feedback (sql_executor_node (.returns res) u) = "" ∧
    (∀ err : AgentError, runLoop o fuel (startRun q hist) = some (.error err) →
       graph_run o fuel q hist = some { initState q hist with
         final_response := some ("죄송합니다. 처리 중 오류가 발생했습니다: " ++ err.toMessage) }) := by
  refine ⟨rfl, rfl, ?_, ?_, ?_, ?_⟩
  · intro s2 hrun hne
    have hks : ¬(found_keywords t.sql_query).isEmpty := by
      cases hfk : found_keywords t.sql_query with
      | nil => exact absurd hfk hne
      | cons a as => simp
    by_cases hcl : MAX_ERROR_COUNT ≤ t.validation_error_count + 1
    · rw [sql_validator_run, if_neg hks, if_pos hcl] at hrun
      cases hrun
    · rw [sql_validator_run, if_neg hks, if_neg hcl] at hrun
      cases hrun
      constructor
      · have htr : pyTruthy (some (validation_error_message (found_keywords t.sql_query)))
            = true := by
          simp [pyTruthy]
          exact validation_error_message_ne_empty _
        rw [should_execute_sql, if_neg (by simpa using hcl)]
        rw [if_pos (by simpa using htr)]
        rfl
      · rw [build_error_feedback, if_pos]
        · exact strContains_append_left _ _ _ (strContains_append_right _ _ _
            (strContains_self _))
        · simp [pyTruthy]
          exact validation_error_message_ne_empty _
  · intro hres
    have hreg : should_retry_or_respond (sql_executor_node (.returns res) u) = "regenerate" := by
      show should_retry_or_respond
        { u with execution_result := some res, validation_error_count := 0,
                 execution_error_count := 0 } = "regenerate"
      rw [should_retry_or_respond, if_neg (by show ¬MAX_ERROR_COUNT ≤ 0; decide)]
      simpa using hres
    rw [hreg]
    rfl
  · show build_error_feedback
      { u with execution_result := some res, validation_error_count := 0,
               execution_error_count := 0 } = ""
    rw [build_error_feedback, if_neg (by simp), if_neg (by simp)]
  · intro err hloop
    unfold graph_run
    rw [hloop]

/-- Witness for C6: a concrete below-ceiling rejection (the deny-listed
query at counter 1) is routed back to the generator with its rejection
message inside the feedback block; a concrete caught-timeout execution
error is routed back to the generator while its feedback block is empty;
and the concrete escaped MaxRetryExceededException of the deny-listed run
surfaces as the templated error result. -/
theorem C6_witness :
    (validatorRoute (should_execute_sql
        (sql_validator_run { initState "q" [] with sql_query := "DROP TABLE employees;" }).1)
      = .sql_generator ∧
     strContains (build_error_feedback
        (sql_validator_run { initState "q" [] with sql_query := "DROP TABLE employees;" }).1)
        (validation_error_message (found_keywords "DROP TABLE employees;")) = true) ∧
    executorRoute (should_retry_or_respond (sql_executor_node
        (.returns "쿼리 실행 중 오류 발생: timeout") (initState "q" [])))
      = .sql_generator ∧
    build_error_feedback (sql_executor_node
        (.returns "쿼리 실행 중 오류 발생: timeout") (initState "q" [])) = "" ∧
    graph_run dropOracle 20 "q" [] = some { initState "q" [] with
      final_response :=
        some ("죄송합니다. 처리 중 오류가 발생했습니다: "
          ++ AgentError.toMessage (.maxRetryExceeded
               "SQL 검증 실패가 3회 반복됨 (최대 재시도 3회 초과)")) } :=
  ⟨(C6_error_propagation (.ok "x") "boom" "쿼리 실행 중 오류 발생: timeout"
      { initState "q" [] with sql_query := "DROP TABLE employees;" } (initState "q" [])
      (initState "q" []) dropOracle 20 "q" []).2.2.1 _ (by decide) (by decide),
   (C6_error_propagation (.ok "x") "boom" "쿼리 실행 중 오류 발생: timeout"
      { initState "q" [] with sql_query := "DROP TABLE employees;" } (initState "q" [])
      (initState "q" []) dropOracle 20 "q" []).2.2.2.1 (by decide),
   (C6_error_propagation (.ok "x") "boom" "쿼리 실행 중 오류 발생: timeout"
      { initState "q" [] with sql_query := "DROP TABLE employees;" } (initState "q" [])
      (initState "q" []) dropOracle 20 "q" []).2.2.2.2.1,
   (C6_error_propagation (.ok "x") "boom" "쿼리 실행 중 오류 발생: timeout"
      { initState "q" [] with sql_query := "DROP TABLE employees;" } (initState "q" [])
      (initState "q" []) dropOracle 20 "q" []).2.2.2.2.2 _ (by decide)⟩



/-- C7 (corrected), counterexample: after three consecutive validation
rejections of `DROP TABLE employees;` the run never reaches the
synthesizer; the user receives the controller's generic fallback message,
which does not name the rejected keyword. -/
theorem C7_counterexample :
    graph_run dropOracle 20 "q" [] =
      some { initState "q" [] with
             final_response :=
               some "죄송합니다. 처리 중 오류가 발생했습니다: SQL 검증 실패가 3회 반복됨 (최대 재시도 3회 초과)" } ∧
    strContains
        "죄송합니다. 처리 중 오류가 발생했습니다: SQL 검증 실패가 3회 반복됨 (최대 재시도 3회 초과)"
        "drop" = false ∧
    Node.response_synthesizer ∉ runNodes dropOracle 20 (startRun "q" []) := by
  decide

/-- C7 (corrected), amended claim: when the synthesizer is reached with a
counter at the ceiling it does build a failure context naming the failure
category and embedding the last recorded error; but a validation-ceiling
state never reaches it — the validator's MaxRetryExceededException always
accompanies the counter reaching 3, so three consecutive validation
rejections end in the controller's fallback message instead of a
synthesized explanation naming the keyword. -/
theorem C7_failure_context (s : SqlAgentState) :
    (MAX_ERROR_COUNT ≤ s.validation_error_count →
       response_context s = build_failure_context s ∧
       strContains (build_failure_context s) "SQL 검증" = true ∧
       strContains (build_failure_context s) (pyStr s.validation_error) = true) ∧
    (s.validation_error_count < MAX_ERROR_COUNT → MAX_ERROR_COUNT ≤ s.execution_error_count →
       response_context s = build_failure_context s ∧
       strContains (build_failure_context s) "SQL 실행" = true ∧
       strContains (build_failure_context s) (pyStr s.execution_result) = true) ∧
    (∀ t s2 err, sql_validator_run t = (s2, some err) →
       MAX_ERROR_COUNT ≤ s2.validation_error_count ∧
       err = .maxRetryExceeded (maxRetryExceededMessage
         ("SQL 검증 실패가 " ++ Nat.repr MAX_ERROR_COUNT ++ "회 반복됨") MAX_ERROR_COUNT)) := by
  refine ⟨?_, ?_, ?_⟩
  · intro hv
    refine ⟨by rw [response_context, if_pos (by simp [hv])], ?_, ?_⟩
    · rw [build_failure_context, if_pos hv, if_pos hv]
      exact strContains_append_left _ _ _ (strContains_append_left _ _ _
        (strContains_append_left _ _ _ (strContains_append_right _ _ _ (strContains_self _))))
    · rw [build_failure_context, if_pos hv, if_pos hv]
      exact strContains_append_left _ _ _ (strContains_append_right _ _ _ (strContains_self _))
  · intro hv hx
    refine ⟨by rw [response_context, if_pos (by simp [hx])], ?_, ?_⟩
    · rw [build_failure_context, if_neg (by omega), if_neg (by omega)]
      exact strContains_append_left _ _ _ (strContains_append_left _ _ _
        (strContains_append_left _ _ _ (strContains_append_right _ _ _ (strContains_self _))))
    · rw [build_failure_context, if_neg (by omega), if_neg (by omega)]
      exact strContains_append_left _ _ _ (strContains_append_right _ _ _ (strContains_self _))
  · intro t s2 err hrun
    by_cases hks : (found_keywords t.sql_query).isEmpty
    · rw [sql_validator_run, if_pos hks] at hrun
      cases hrun
    · by_cases hcl : MAX_ERROR_COUNT ≤ t.validation_error_count + 1
      · rw [sql_validator_run, if_neg hks, if_pos hcl] at hrun
        cases hrun
        exact ⟨hcl, rfl⟩
      · rw [sql_validator_run, if_neg hks, if_neg hcl] at hrun
        cases hrun

/-- Witness for C7: a state with the execution counter at the ceiling gets
the execution failure context embedding its last stored execution error,
and the concrete 3rd rejection of the deny-listed query carries the
MaxRetryExceededException. -/
theorem C7_witness :
    (response_context { initState "q" [] with execution_error_count := 3, execution_result := some "실행 오류: timeout" }
       = build_failure_context { initState "q" [] with execution_error_count := 3, execution_result := some "실행 오류: timeout" } ∧
     strContains (build_failure_context { initState "q" [] with execution_error_count := 3, execution_result := some "실행 오류: timeout" })
       "SQL 실행" = true ∧
     strContains (build_failure_context { initState "q" [] with execution_error_count := 3, execution_result := some "실행 오류: timeout" })
       (pyStr (some "실행 오류: timeout")) = true) ∧
    (MAX_ERROR_COUNT ≤
       (sql_validator_run { initState "q" [] with sql_query := "DROP TABLE employees;", validation_error_count := 2 }).1.validation_error_count) :=
  ⟨(C7_failure_context { initState "q" [] with execution_error_count := 3, execution_result := some "실행 오류: timeout" }).2.1
      (by decide) (by decide),
   ((C7_failure_context (initState "q" [])).2.2
      { initState "q" [] with sql_query := "DROP TABLE employees;", validation_error_count := 2 }
      _ (.maxRetryExceeded (maxRetryExceededMessage
          ("SQL 검증 실패가 " ++ Nat.repr MAX_ERROR_COUNT ++ "회 반복됨") MAX_ERROR_COUNT))
      (by decide)).1⟩

/-- C8 (corrected), counterexample: a completed run in which the synthesis
port succeeds with the empty string ends with `finalResponse` set to the
empty string — non-null but empty, against the claim. -/
theorem C8_counterexample :
    (graph_run emptySynthOracle 20 "q" []).isSome = true ∧
    (graph_run emptySynthOracle 20 "q" []).bind (fun s => s.final_response) = some "" := by
  decide

/-- C8 (corrected), amended claim: every completed run ends with
`finalResponse` set (exactly once: it is `none` at every reachable
non-terminal run state and set at END); on a synthesis port failure the
deterministic, non-empty templated fallback is stored; but the final
response is the synthesis port's text verbatim when the port succeeds, so
it is empty exactly when a successful port returns empty text. -/
theorem C8_final_response_always_set (o : Oracle) (fuel : Nat) (q : String)
    (hist : List String) (s t : SqlAgentState) (e : String) :
    (graph_run o fuel q hist = some s → s.final_response.isSome = true) ∧
    ((response_synthesizer_node (.error e) t).final_response
        = some ("죄송합니다. 답변 생성 중 오류가 발생했습니다: " ++ e) ∧
     ("죄송합니다. 답변 생성 중 오류가 발생했습니다: " ++ e) ≠ "") ∧
    (∀ r : RunState, ReachFrom o (startRun q hist) r → r.node ≠ .terminal →
       r.s.final_response = none) := by
  refine ⟨?_, ⟨rfl, append_ne_empty_left _ _ (by decide)⟩, ?_⟩
  · intro hg
    unfold graph_run at hg
    cases hl : runLoop o fuel (startRun q hist) with
    | none => rw [hl] at hg; cases hg
    | some res =>
      cases res with
      | ok s0 =>
        rw [hl] at hg
        simp only [Option.some.injEq] at hg
        subst hg
        obtain ⟨r2, hr2, hterm, hs⟩ := runLoop_ok_reach fuel _ s0 hl
        have hinv := inv_reach (inv_start q hist) hr2
        have := hinv.2.1
        rw [if_pos hterm] at this
        rw [← hs]
        exact this
      | error err =>
        rw [hl] at hg
        simp only [Option.some.injEq] at hg
        subst hg
        rfl
  · intro r hr hnt
    have hinv := inv_reach (inv_start q hist) hr
    have := hinv.2.1
    rwa [if_neg hnt] at this

/-- Witness for C8: the completed happy-path run has its final response
set; a concrete port failure stores the non-empty fallback; and the
reachable initial run state has no final response yet. -/
theorem C8_witness :
    ((graph_run selectOracle 20 "q" []).getD (initState "q" [])).final_response.isSome = true ∧
    (response_synthesizer_node (.error "boom") (initState "q" [])).final_response
      = some ("죄송합니다. 답변 생성 중 오류가 발생했습니다: " ++ "boom") ∧
    (startRun "q" []).s.final_response = none :=
  ⟨(C8_final_response_always_set selectOracle 20 "q" [] _ (initState "q" []) "boom").1
      (by decide),
   (C8_final_response_always_set selectOracle 20 "q" [] (initState "q" [])
      (initState "q" []) "boom").2.1.1,
   (C8_final_response_always_set selectOracle 20 "q" [] (initState "q" [])
      (initState "q" []) "boom").2.2 _ .refl (by decide)⟩

end Claims

end QGenie
